import Mathlib

/-!
Verification of the property-form state machine of the spot2 assistant
repository.

The definitions below are a shallow embedding of the Python sources:

* `src/app/models/property_form.py` — `FieldStatus`, `PropertyField`,
  `PropertyFormModel` and their methods;
* `src/app/utils/state_management.py` — the session-state adapter;
* `src/app/agents/tools/tools.py` — the `extract_field` and
  `check_form_status` tools;
* `src/app/agents/form_validator.py` — the `before_validator_cb` callback.

Modelling conventions:

* Python's mutable objects become explicit state passing: a method that
  mutates `self` returns the updated record alongside its result.
* Regular-expression source strings are embedded as their compiled views,
  Mathlib `RegularExpression Char` values (compilation in Python's `re`
  module is deterministic, so the AST stands for the pattern string; no
  field of the repository actually carries a pattern).  `re.match`, which
  anchors at the start of the subject only, is embedded as `reMatch`.
* Python dictionaries (`additional_fields`, the session state) become
  association lists that preserve insertion order, and the two session
  keys the component uses are records fields.
* Fallible deserialization (`pydantic.model_validate`) returns `Option`.
-/

namespace Spot2

/-- Compiled view of a Python regular expression pattern string. -/
abbrev RePattern := RegularExpression Char

/-- Embedding of `re.compile(pattern).match(value)`: Python's `match`
anchors at the start of the subject, so it succeeds exactly when some
(possibly empty) leading segment of the subject is in the pattern's
language. -/
def reMatch (p : RePattern) (s : String) : Bool :=
  s.data.inits.any fun pre => p.rmatch pre

/-- A `List.any` over the initial segments of a list is a search for a
split of the list whose left part satisfies the predicate. -/
lemma any_inits_iff (f : List Char → Bool) (s : List Char) :
    s.inits.any f = true ↔ ∃ pre suf : List Char, s = pre ++ suf ∧ f pre = true := by
  rw [List.any_eq_true]
  constructor
  · rintro ⟨pre, hmem, hf⟩
    obtain ⟨suf, hsuf⟩ := (List.mem_inits _ _).1 hmem
    exact ⟨pre, suf, hsuf.symm, hf⟩
  · rintro ⟨pre, suf, hs, hf⟩
    exact ⟨pre, (List.mem_inits _ _).2 ⟨suf, hs.symm⟩, hf⟩

/-- The check `reMatch` agrees with the language semantics of regular expressions:
the pattern matches at the start of `s` iff some leading segment of `s`
belongs to the pattern's language. -/
lemma reMatch_iff (p : RePattern) (s : String) :
    reMatch p s = true ↔
      ∃ pre suf : List Char, s.data = pre ++ suf ∧ pre ∈ p.matches' := by
  rw [reMatch, any_inits_iff]
  constructor
  · rintro ⟨pre, suf, h1, h2⟩
    exact ⟨pre, suf, h1, (RegularExpression.rmatch_iff_matches' p pre).1 h2⟩
  · rintro ⟨pre, suf, h1, h2⟩
    exact ⟨pre, suf, h1, (RegularExpression.rmatch_iff_matches' p pre).2 h2⟩

/-- Embedding of `class FieldStatus(str, enum.Enum)` from `property_form.py`. -/
inductive FieldStatus where
  | NOT_PROVIDED
  | INVALID
  | VALID
deriving DecidableEq

/-- The string value each enum member serializes to. -/
def FieldStatus.toStr : FieldStatus → String
  | .NOT_PROVIDED => "not_provided"
  | .INVALID => "invalid"
  | .VALID => "valid"

/-- Parsing an enum member back from its string value (what pydantic's
`model_validate` does for the `str`-valued enum); unknown strings fail. -/
def FieldStatus.ofStr : String → Option FieldStatus
  | "not_provided" => some .NOT_PROVIDED
  | "invalid" => some .INVALID
  | "valid" => some .VALID
  | _ => none

/-- Embedding of `class PropertyField(BaseModel)` from `property_form.py`. -/
structure PropertyField where
  status : FieldStatus := .NOT_PROVIDED
  value : Option String := none
  description : String
  examples : List String
  validation_pattern : Option RePattern := none

/-- The fixed generic message `validate_value` returns on failure. -/
def patternErrorMsg : String :=
  "The value does not match the expected pattern for this field."

/-- Embedding of `PropertyField.validate_value`.  The Python guard
`if self.validation_pattern and value:` skips validation both when no
pattern is set and when the value is the empty string (falsy). -/
def PropertyField.validate_value (f : PropertyField) (value : String) :
    Bool × Option String :=
  match f.validation_pattern with
  | some pat =>
      if value ≠ "" then
        if reMatch pat value then (true, none)
        else (false, some patternErrorMsg)
      else (true, none)
  | none => (true, none)

/-- Ordered-dictionary lookup on an association list (Python
`dict.__getitem__` / `in`, first match). -/
def dictGet (l : List (String × PropertyField)) (name : String) :
    Option PropertyField :=
  match l with
  | [] => none
  | kv :: rest => if kv.1 = name then some kv.2 else dictGet rest name

/-- Embedding of `class PropertyFormModel(BaseModel)` from `property_form.py`, with the
four required fields carrying the source's `default_factory` defaults. -/
structure PropertyFormModel where
  budget : PropertyField :=
    { description := "Budget for the property (e.g., 20,000 USD)",
      examples := ["I have a budget of 20,000 USD", "My budget is 50,000 dollars"] }
  total_size : PropertyField :=
    { description := "Total size requirement (e.g., 500m¬≤)",
      examples := ["I need 500m¬≤", "I\x27m looking for 300 square meters"] }
  real_estate_type : PropertyField :=
    { description := "Type of real estate (e.g., office, retail, warehouse)",
      examples := ["I am looking for an office space", "I need a retail location"] }
  city : PropertyField :=
    { description := "City location (e.g., Mexico City)",
      examples := ["I want a property in Mexico City", "Looking in Barcelona"] }
  additional_fields : List (String × PropertyField) := []
  form_complete : Bool := false

/-- Embedding of `PropertyFormModel()`: a freshly constructed form, all defaults. -/
def PropertyFormModel.new : PropertyFormModel := {}

/-- The canonical required-field names, in declaration order. -/
def requiredNames : List String :=
  ["budget", "total_size", "real_estate_type", "city"]

/-- Embedding of `PropertyFormModel.is_complete`. -/
def PropertyFormModel.is_complete (f : PropertyFormModel) : Bool :=
  [f.budget, f.total_size, f.real_estate_type, f.city].all
    fun field => field.status == FieldStatus.VALID

/-- The `fields_map` ordered dictionary built inside
`get_missing_fields`. -/
def PropertyFormModel.fields_map (f : PropertyFormModel) :
    List (String × PropertyField) :=
  [("budget", f.budget), ("total_size", f.total_size),
   ("real_estate_type", f.real_estate_type), ("city", f.city)]

/-- Embedding of `PropertyFormModel.get_missing_fields`: the loop appending the name of
every required field whose status is not `VALID`. -/
def PropertyFormModel.get_missing_fields (f : PropertyFormModel) : List String :=
  f.fields_map.foldl
    (fun missing nf =>
      if nf.2.status ≠ FieldStatus.VALID then missing ++ [nf.1] else missing)
    []

/-- Embedding of `getattr(self, field_name)` for the four required fields (only ever
called with one of the four canonical names; the final arm is `city`). -/
def PropertyFormModel.getRequired (f : PropertyFormModel) (name : String) :
    PropertyField :=
  if name = "budget" then f.budget
  else if name = "total_size" then f.total_size
  else if name = "real_estate_type" then f.real_estate_type
  else f.city

/-- Writing back through the attribute named by `name` (the required
branch of `update_field` mutates `getattr(self, field_name)` in place). -/
def PropertyFormModel.setRequired (f : PropertyFormModel) (name : String)
    (field : PropertyField) : PropertyFormModel :=
  if name = "budget" then { f with budget := field }
  else if name = "total_size" then { f with total_size := field }
  else if name = "real_estate_type" then { f with real_estate_type := field }
  else { f with city := field }

/-- Embedding of `PropertyFormModel.update_field`.  Returns the `(success, error)` pair
together with the mutated form.  The required branch validates, stores the
value and a `VALID`/`INVALID` status regardless of validity, and recomputes
`form_complete` (`update_completion_status`); the additional branch creates
or overwrites the named entry with status `VALID` unconditionally. -/
def PropertyFormModel.update_field (f : PropertyFormModel)
    (field_name value : String) : (Bool × Option String) × PropertyFormModel :=
  if field_name ∈ requiredNames then
    let field := f.getRequired field_name
    let v := field.validate_value value
    let field1 : PropertyField :=
      { field with value := some value,
                   status := if v.1 then FieldStatus.VALID else FieldStatus.INVALID }
    let f1 := f.setRequired field_name field1
    (v, { f1 with form_complete := f1.is_complete })
  else if (dictGet f.additional_fields field_name).isNone then
    let newField : PropertyField :=
      { description := "Additional field: " ++ field_name,
        examples := [value],
        value := some value,
        status := FieldStatus.VALID }
    ((true, none),
     { f with additional_fields := f.additional_fields ++ [(field_name, newField)] })
  else
    ((true, none),
     { f with additional_fields :=
         f.additional_fields.map fun kv =>
           if kv.1 = field_name then
             (kv.1, { kv.2 with value := some value, status := FieldStatus.VALID })
           else kv })

/-- How Python renders an `Optional[str]` inside an f-string. -/
def pyOptStr : Option String → String
  | some s => s
  | none => "None"

/-- Embedding of `str.title()` restricted to the ASCII letters (sufficient for the
normalized field names this code applies it to): the first letter of every
letter run is uppercased, the rest lowercased. -/
def pyTitleAux : Bool → List Char → List Char
  | _, [] => []
  | prevCased, c :: cs =>
      let cased := c.isAlpha
      (if cased then (if prevCased then c.toLower else c.toUpper) else c) ::
        pyTitleAux cased cs

/-- Embedding of `str.title()`. -/
def pyTitle (s : String) : String := ⟨pyTitleAux false s.data⟩

/-- One required-field line of `get_fields_summary` (the source file
stores the three status markers as the literal mojibake characters
reproduced here by their code points). -/
def summaryFieldLine (name : String) (field : PropertyField) : String :=
  if field.status == FieldStatus.VALID then
    "‚úÖ **" ++ name ++ "**: " ++ pyOptStr field.value
  else if field.status == FieldStatus.INVALID then
    "‚ùå **" ++ name ++ "**: " ++ pyOptStr field.value ++ " (Invalid)"
  else
    "‚¨ú **" ++ name ++ "**: Not provided"

/-- Embedding of `PropertyFormModel.get_fields_summary`. -/
def PropertyFormModel.get_fields_summary (f : PropertyFormModel) : String :=
  let displayMap : List (String × PropertyField) :=
    [("Budget", f.budget), ("Total Size", f.total_size),
     ("Real Estate Type", f.real_estate_type), ("City", f.city)]
  let s1 := ["### Required Fields"] ++ displayMap.map fun nf => summaryFieldLine nf.1 nf.2
  let s2 :=
    if f.additional_fields.isEmpty then []
    else
      ["\n### Additional Fields"] ++
        f.additional_fields.map fun kv =>
          "üìå **" ++ pyTitle (kv.1.replace "_" " ") ++ "**: " ++
            pyOptStr kv.2.value
  let s3 :=
    ["\n### Form Status"] ++
      (if f.form_complete then
        ["‚úÖ All required fields are complete!"]
      else
        ["‚¨ú Waiting for: " ++
          String.intercalate ", " (f.get_missing_fields.map fun n => "`" ++ n ++ "`")])
  String.intercalate "\n" (s1 ++ s2 ++ s3)

/-- The plain-data shape `PropertyField.model_dump()` produces (the enum
member becomes its string value; everything else is carried verbatim). -/
structure PropertyFieldRepr where
  status : String
  value : Option String
  description : String
  examples : List String
  validation_pattern : Option RePattern

/-- Embedding of `PropertyField.model_dump()`. -/
def PropertyField.model_dump (f : PropertyField) : PropertyFieldRepr :=
  { status := f.status.toStr, value := f.value, description := f.description,
    examples := f.examples, validation_pattern := f.validation_pattern }

/-- Embedding of `PropertyField.model_validate(...)`: fails when the stored status
string is not an enum value. -/
def PropertyField.model_validate (r : PropertyFieldRepr) : Option PropertyField :=
  (FieldStatus.ofStr r.status).map fun st =>
    { status := st, value := r.value, description := r.description,
      examples := r.examples, validation_pattern := r.validation_pattern }

/-- The plain-data shape `PropertyFormModel.model_dump()` produces. -/
structure PropertyFormRepr where
  budget : PropertyFieldRepr
  total_size : PropertyFieldRepr
  real_estate_type : PropertyFieldRepr
  city : PropertyFieldRepr
  additional_fields : List (String × PropertyFieldRepr)
  form_complete : Bool

/-- Embedding of `PropertyFormModel.model_dump()`. -/
def PropertyFormModel.model_dump (f : PropertyFormModel) : PropertyFormRepr :=
  { budget := f.budget.model_dump, total_size := f.total_size.model_dump,
    real_estate_type := f.real_estate_type.model_dump, city := f.city.model_dump,
    additional_fields := f.additional_fields.map fun kv => (kv.1, kv.2.model_dump),
    form_complete := f.form_complete }

/-- Validating every entry of the `additional_fields` map. -/
def validateFieldMap : List (String × PropertyFieldRepr) →
    Option (List (String × PropertyField))
  | [] => some []
  | (k, r) :: rest => do
      let fl ← PropertyField.model_validate r
      let tail ← validateFieldMap rest
      some ((k, fl) :: tail)

/-- Embedding of `PropertyFormModel.model_validate(...)`. -/
def PropertyFormModel.model_validate (r : PropertyFormRepr) :
    Option PropertyFormModel := do
  let b ← PropertyField.model_validate r.budget
  let ts ← PropertyField.model_validate r.total_size
  let ret ← PropertyField.model_validate r.real_estate_type
  let c ← PropertyField.model_validate r.city
  let af ← validateFieldMap r.additional_fields
  some { budget := b, total_size := ts, real_estate_type := ret, city := c,
         additional_fields := af, form_complete := r.form_complete }

/-- The ADK session-state dictionary, restricted to the two keys this
component reads or writes (the keys "property_form" and
"form_validation_count"); a `none` field is an absent key. -/
structure SessionState where
  property_form : Option PropertyFormRepr := none
  form_validation_count : Option Nat := none

/-- Embedding of `initialize_form_in_state` from `state_management.py`,
under a shortened name: writes a freshly constructed form under the key
if it is absent. -/
def init_form_in_state (st : SessionState) : SessionState :=
  match st.property_form with
  | none => { st with property_form := some PropertyFormModel.new.model_dump }
  | some _ => st

/-- Embedding of `get_form_from_state`: idempotently initializes, then deserializes.
`none` is the embedded image of the `pydantic.ValidationError` raised on
foreign data under the key. -/
def get_form_from_state (st : SessionState) :
    Option (PropertyFormModel × SessionState) :=
  let st1 := init_form_in_state st
  match st1.property_form with
  | some r => (PropertyFormModel.model_validate r).map fun f => (f, st1)
  | none => none

/-- Embedding of `update_form_in_state`. -/
def update_form_in_state (st : SessionState) (form : PropertyFormModel) :
    SessionState :=
  { st with property_form := some form.model_dump }

/-- Embedding of `update_field_in_form`. -/
def update_field_in_form (st : SessionState) (field_name value : String) :
    Option ((Bool × Option String) × SessionState) := do
  let (form, st1) ← get_form_from_state st
  let (res, form1) := form.update_field field_name value
  some (res, update_form_in_state st1 form1)

/-- Embedding of `is_form_complete`. -/
def is_form_complete (st : SessionState) : Option (Bool × SessionState) :=
  (get_form_from_state st).map fun fs => (fs.1.is_complete, fs.2)

/-- Embedding of `get_missing_fields` (the module-level reader in
`state_management.py`; suffixed to distinguish it from the method). -/
def get_missing_fields_state (st : SessionState) :
    Option (List String × SessionState) :=
  (get_form_from_state st).map fun fs => (fs.1.get_missing_fields, fs.2)

/-- Embedding of `get_form_summary`. -/
def get_form_summary (st : SessionState) : Option (String × SessionState) :=
  (get_form_from_state st).map fun fs => (fs.1.get_fields_summary, fs.2)

/-- Embedding of `field_name.lower().replace(' ', '_')` from `extract_field`,
embedded character-wise: lowering maps `Char.toLower` over the
characters, and replacing the one-character pattern `' '` by `'_'` is a
character map as well. -/
def normalizeFieldName (s : String) : String :=
  ⟨(s.data.map Char.toLower).map fun c => if c = ' ' then '_' else c⟩

/-- The dictionary `extract_field` returns (its three shapes, tagged by
the `status` entry). -/
inductive ExtractResult where
  | unchanged (field value message : String)
  | error (field value error_msg : String)
  | success (field value : String) (is_standard_field : Bool)
deriving DecidableEq

/-- The `status` entry of an `extract_field` result. -/
def ExtractResult.statusStr : ExtractResult → String
  | .unchanged .. => "unchanged"
  | .error .. => "error"
  | .success .. => "success"

/-- The current stored value `extract_field` compares against: the
required field's value when the normalized name is standard, else the
value of the matching additional entry if any (`current_value` stays
`None` otherwise). -/
def storedValue (form : PropertyFormModel) (n : String) : Option String :=
  if n ∈ requiredNames then (form.getRequired n).value
  else
    match dictGet form.additional_fields n with
    | some fl => fl.value
    | none => none

/-- Embedding of `extract_field` from `tools.py`. -/
def extract_field (field_name value : String) (st : SessionState) :
    Option (ExtractResult × SessionState) := do
  let normalized := normalizeFieldName field_name
  let is_standard := normalized ∈ requiredNames
  let (form, st1) ← get_form_from_state st
  let current_value := storedValue form normalized
  if current_value = some value then
    some (.unchanged normalized value "Field already has this value", st1)
  else do
    let (res, st2) ← update_field_in_form st1 normalized value
    if res.1 = false then
      some (.error normalized value
        (match res.2 with
         | some m => if m = "" then "Validation failed" else m
         | none => "Validation failed"), st2)
    else
      some (.success normalized value is_standard, st2)

/-- The dictionary `check_form_status` returns. -/
structure StatusResult where
  form_complete : Bool
  missing_fields : List String
  summary : String
  validation_count : Nat
deriving DecidableEq

/-- Embedding of `check_form_status` from `tools.py`: three reads through the adapter,
then the diagnostic counter is read (not written) from the state with
default `0`. -/
def check_form_status (st : SessionState) :
    Option (StatusResult × SessionState) := do
  let (missing, st1) ← get_missing_fields_state st
  let (complete, st2) ← is_form_complete st1
  let (summary, st3) ← get_form_summary st2
  let validation_count := st3.form_validation_count.getD 0
  some ({ form_complete := complete, missing_fields := missing,
          summary := summary, validation_count := validation_count }, st3)

/-- Embedding of `before_validator_cb` from `form_validator.py`: sets the counter to
`0` when the key is absent, increments it otherwise. -/
def before_validator_cb (st : SessionState) : SessionState :=
  match st.form_validation_count with
  | none => { st with form_validation_count := some 0 }
  | some n => { st with form_validation_count := some (n + 1) }

/-! ## Helper lemmas -/

/-- Applying a list of `update_field` calls in sequence (each call's
returned form is the receiver of the next). -/
def applyUpdates (f : PropertyFormModel) : List (String × String) → PropertyFormModel
  | [] => f
  | nv :: rest => applyUpdates (f.update_field nv.1 nv.2).2 rest

lemma is_complete_iff (f : PropertyFormModel) :
    f.is_complete = true ↔
      (f.budget.status = FieldStatus.VALID ∧
       f.total_size.status = FieldStatus.VALID ∧
       f.real_estate_type.status = FieldStatus.VALID ∧
       f.city.status = FieldStatus.VALID) := by
  simp [PropertyFormModel.is_complete]

lemma validate_value_empty (f : PropertyField) : f.validate_value "" = (true, none) := by
  cases h : f.validation_pattern <;> simp [PropertyField.validate_value, h]

lemma update_field_agreement (f : PropertyFormModel) (n v : String)
    (h : f.form_complete = f.is_complete) :
    (f.update_field n v).2.form_complete = (f.update_field n v).2.is_complete := by
  unfold PropertyFormModel.update_field
  by_cases hn : n ∈ requiredNames
  · rw [if_pos hn]; rfl
  · rw [if_neg hn]
    split <;> simpa [PropertyFormModel.is_complete] using h

lemma applyUpdates_agreement (updates : List (String × String)) (f : PropertyFormModel)
    (h : f.form_complete = f.is_complete) :
    (applyUpdates f updates).form_complete = (applyUpdates f updates).is_complete := by
  induction updates generalizing f with
  | nil => exact h
  | cons nv rest ih =>
      exact ih (f.update_field nv.1 nv.2).2 (update_field_agreement f nv.1 nv.2 h)

lemma getRequired_setRequired (f : PropertyFormModel) (n : String) (fl : PropertyField) :
    (f.setRequired n fl).getRequired n = fl := by
  unfold PropertyFormModel.setRequired PropertyFormModel.getRequired
  by_cases h1 : n = "budget" <;> by_cases h2 : n = "total_size" <;>
    by_cases h3 : n = "real_estate_type" <;> simp [h1, h2, h3]

lemma setRequired_getRequired (f : PropertyFormModel) (n : String) :
    f.setRequired n (f.getRequired n) = f := by
  unfold PropertyFormModel.setRequired PropertyFormModel.getRequired
  by_cases h1 : n = "budget" <;> by_cases h2 : n = "total_size" <;>
    by_cases h3 : n = "real_estate_type" <;> simp [h1, h2, h3]

lemma dictGet_append_self (l : List (String × PropertyField)) (name : String)
    (fl : PropertyField) (h : dictGet l name = none) :
    dictGet (l ++ [(name, fl)]) name = some fl := by
  induction l with
  | nil => simp [dictGet]
  | cons kv rest ih =>
      by_cases hk : kv.1 = name
      · simp [dictGet, hk] at h
      · simp only [List.cons_append, dictGet, hk, if_false, if_neg hk] at h ⊢
        exact ih h

lemma dictGet_map_setvs (l : List (String × PropertyField)) (name value : String) :
    dictGet
        (l.map fun kv =>
          if kv.1 = name then
            (kv.1, { kv.2 with value := some value, status := FieldStatus.VALID })
          else kv) name =
      (dictGet l name).map
        fun fl => { fl with value := some value, status := FieldStatus.VALID } := by
  induction l with
  | nil => rfl
  | cons kv rest ih => by_cases hk : kv.1 = name <;> simp [dictGet, hk, ih]

lemma status_ofStr_toStr (s : FieldStatus) : FieldStatus.ofStr s.toStr = some s := by
  cases s <;> rfl

lemma field_model_validate_dump (f : PropertyField) :
    PropertyField.model_validate f.model_dump = some f := by
  simp [PropertyField.model_validate, PropertyField.model_dump, status_ofStr_toStr]

lemma validateFieldMap_dump (l : List (String × PropertyField)) :
    validateFieldMap (l.map fun kv => (kv.1, kv.2.model_dump)) = some l := by
  induction l with
  | nil => rfl
  | cons kv rest ih => simp [validateFieldMap, field_model_validate_dump, ih]

lemma form_model_validate_dump (f : PropertyFormModel) :
    PropertyFormModel.model_validate f.model_dump = some f := by
  simp [PropertyFormModel.model_validate, PropertyFormModel.model_dump,
        field_model_validate_dump, validateFieldMap_dump]

/-! ## Claims -/

/-- C1: starting from a freshly created form (all four required fields
`NOT_PROVIDED`, `form_complete` false), after every sequence of
`update_field` calls the cached flag `form_complete` is true iff all four
required fields have status `VALID`, and it agrees with `is_complete`. -/
theorem form_complete_invariant (updates : List (String × String)) :
    (PropertyFormModel.new.budget.status = FieldStatus.NOT_PROVIDED ∧
     PropertyFormModel.new.total_size.status = FieldStatus.NOT_PROVIDED ∧
     PropertyFormModel.new.real_estate_type.status = FieldStatus.NOT_PROVIDED ∧
     PropertyFormModel.new.city.status = FieldStatus.NOT_PROVIDED ∧
     PropertyFormModel.new.form_complete = false) ∧
    ((applyUpdates PropertyFormModel.new updates).form_complete = true ↔
      ((applyUpdates PropertyFormModel.new updates).budget.status = FieldStatus.VALID ∧
       (applyUpdates PropertyFormModel.new updates).total_size.status = FieldStatus.VALID ∧
       (applyUpdates PropertyFormModel.new updates).real_estate_type.status = FieldStatus.VALID ∧
       (applyUpdates PropertyFormModel.new updates).city.status = FieldStatus.VALID)) ∧
    (applyUpdates PropertyFormModel.new updates).form_complete =
      (applyUpdates PropertyFormModel.new updates).is_complete := by
  have hagree := applyUpdates_agreement updates PropertyFormModel.new rfl
  exact ⟨⟨rfl, rfl, rfl, rfl, rfl⟩, by rw [hagree]; exact is_complete_iff _, hagree⟩

/-- C3: `validate_value` is a pure check (it is a plain function of the
field and the value in this embedding): with a pattern set and a non-empty
value it succeeds iff the pattern matches the value from its start (some
leading segment of the value is in the pattern's language), failing with
the fixed generic message; with no pattern, or an empty value, it always
returns `(true, none)`. -/
theorem validate_value_spec (f : PropertyField) (value : String) :
    (∀ p, f.validation_pattern = some p → value ≠ "" →
      (((f.validate_value value).1 = true) ↔
        ∃ pre suf : List Char, value.data = pre ++ suf ∧ pre ∈ p.matches') ∧
      ((f.validate_value value).1 = false →
        (f.validate_value value).2 = some patternErrorMsg)) ∧
    ((f.validation_pattern = none ∨ value = "") →
      f.validate_value value = (true, none)) := by
  constructor
  · intro p hp hne
    constructor
    · rw [← reMatch_iff p value]
      simp only [PropertyField.validate_value, hp, if_pos hne]
      cases hm : reMatch p value <;> simp [hm]
    · simp only [PropertyField.validate_value, hp, if_pos hne]
      cases hm : reMatch p value <;> simp [hm]
  · rintro (hp | hv)
    · simp [PropertyField.validate_value, hp]
    · rw [hv]; exact validate_value_empty f

/-- Concrete instance for `validate_value_spec`: a field carrying the
pattern `a`, checked on the value `"ab"`, which it matches at the start. -/
def patField : PropertyField :=
  { description := "d", examples := [],
    validation_pattern := some (RegularExpression.char 'a') }

/-- Witness for C3 at `patField` and value `"ab"`. -/
theorem validate_value_spec_witness : (patField.validate_value "ab").1 = true :=
  ((validate_value_spec patField "ab").1 (RegularExpression.char 'a') rfl
      (by decide)).1.mpr
    ⟨['a'], ['b'], rfl,
      (RegularExpression.rmatch_iff_matches' (RegularExpression.char 'a') ['a']).1
        (by decide)⟩

/-- C4: `get_missing_fields` returns exactly the subset of the four
required names, in declaration order, whose field's status is not
`VALID`. -/
theorem get_missing_fields_spec (f : PropertyFormModel) :
    f.get_missing_fields = requiredNames.filter
      (fun name => decide ((f.getRequired name).status ≠ FieldStatus.VALID)) := by
  by_cases h1 : f.budget.status = FieldStatus.VALID <;>
  by_cases h2 : f.total_size.status = FieldStatus.VALID <;>
  by_cases h3 : f.real_estate_type.status = FieldStatus.VALID <;>
  by_cases h4 : f.city.status = FieldStatus.VALID <;>
    simp [PropertyFormModel.get_missing_fields, PropertyFormModel.fields_map,
          PropertyFormModel.getRequired, requiredNames, List.filter, h1, h2, h3, h4]

/-- C8: saving a form to the session state and loading it back succeeds
and yields the identical form (identical values and statuses for all
required and additional fields included): serialization round-trips
losslessly. -/
theorem form_save_load_roundtrip (st : SessionState) (f : PropertyFormModel) :
    get_form_from_state (update_form_in_state st f) =
      some (f, update_form_in_state st f) := by
  simp [get_form_from_state, update_form_in_state, init_form_in_state,
        form_model_validate_dump]

/-- A pattern that requires non-empty input: `a+`, i.e. `a · a*` (its
language contains no empty word). -/
def reNonEmpty : RePattern :=
  RegularExpression.comp (RegularExpression.char 'a')
    (RegularExpression.star (RegularExpression.char 'a'))

/-- A fresh form whose `city` field carries the pattern `reNonEmpty`. -/
def cityPatternForm : PropertyFormModel :=
  { PropertyFormModel.new with
      city := { PropertyFormModel.new.city with validation_pattern := some reNonEmpty } }

/-- C2 (counterexample): with `city` carrying a pattern whose language
excludes the empty word, `update_field "city" ""` nevertheless returns
`(true, none)` and marks the field `VALID` (storing the empty string),
because `validate_value` skips validation for falsy (empty) values — the
claimed `(false, message)` / `INVALID` outcome does not occur. -/
theorem update_field_empty_city_cx :
    cityPatternForm.city.validation_pattern = some reNonEmpty ∧
    reNonEmpty.rmatch [] = false ∧
    (cityPatternForm.update_field "city" "").1 = (true, none) ∧
    (cityPatternForm.update_field "city" "").2.city.status = FieldStatus.VALID ∧
    (cityPatternForm.update_field "city" "").2.city.value = some "" :=
  ⟨rfl, by decide, by decide, by decide, by decide⟩

/-- C2 (amended): for any form whose `city` field carries a validation
pattern, `update_field "city" ""` returns `(true, none)`, sets the field's
status to `VALID`, and stores the empty string as the value — the empty
value bypasses pattern validation. -/
theorem update_field_empty_city_amended (f : PropertyFormModel) (p : RePattern)
    (_hp : f.city.validation_pattern = some p) :
    (f.update_field "city" "").1 = (true, none) ∧
    (f.update_field "city" "").2.city.status = FieldStatus.VALID ∧
    (f.update_field "city" "").2.city.value = some "" := by
  unfold PropertyFormModel.update_field
  rw [if_pos (show "city" ∈ requiredNames by decide)]
  simp [PropertyFormModel.getRequired, PropertyFormModel.setRequired,
        validate_value_empty]

/-- Witness for the amended C2 at `cityPatternForm`. -/
theorem update_field_empty_city_amended_witness :
    (cityPatternForm.update_field "city" "").1 = (true, none) ∧
    (cityPatternForm.update_field "city" "").2.city.status = FieldStatus.VALID ∧
    (cityPatternForm.update_field "city" "").2.city.value = some "" :=
  update_field_empty_city_amended cityPatternForm reNonEmpty rfl

/-- C5: for any field name other than the four canonical required names,
`update_field` returns `(true, none)` and leaves the named additional
field with status `VALID` and the given value; when the name is new, the
created field carries description `"Additional field: " ++ name` and
examples `[value]`. -/
theorem update_field_additional_spec (f : PropertyFormModel) (name value : String)
    (h : name ∉ requiredNames) :
    (f.update_field name value).1 = (true, none) ∧
    (∃ fl, dictGet (f.update_field name value).2.additional_fields name = some fl ∧
       fl.status = FieldStatus.VALID ∧ fl.value = some value) ∧
    (dictGet f.additional_fields name = none →
      dictGet (f.update_field name value).2.additional_fields name =
        some { status := FieldStatus.VALID, value := some value,
               description := "Additional field: " ++ name,
               examples := [value], validation_pattern := none }) := by
  unfold PropertyFormModel.update_field
  rw [if_neg h]
  cases hd : dictGet f.additional_fields name with
  | none =>
      rw [show (none : Option PropertyField).isNone = true from rfl, if_pos rfl]
      exact ⟨rfl, ⟨_, dictGet_append_self _ _ _ hd, rfl, rfl⟩,
        fun _ => dictGet_append_self _ _ _ hd⟩
  | some fl0 =>
      rw [show (some fl0).isNone = false from rfl, if_neg Bool.false_ne_true]
      refine ⟨rfl,
        ⟨{ fl0 with value := some value, status := FieldStatus.VALID }, ?_, rfl, rfl⟩,
        fun hcontra => absurd hcontra (by simp)⟩
      show dictGet (f.additional_fields.map _) name = _
      rw [dictGet_map_setvs, hd]
      rfl

/-- Witness for C5: `update_field "parking" "yes"` on a fresh form. -/
theorem update_field_additional_spec_witness :
    (PropertyFormModel.new.update_field "parking" "yes").1 = (true, none) ∧
    (∃ fl, dictGet (PropertyFormModel.new.update_field "parking" "yes").2.additional_fields
        "parking" = some fl ∧
       fl.status = FieldStatus.VALID ∧ fl.value = some "yes") ∧
    (dictGet PropertyFormModel.new.additional_fields "parking" = none →
      dictGet (PropertyFormModel.new.update_field "parking" "yes").2.additional_fields
          "parking" =
        some { status := FieldStatus.VALID, value := some "yes",
               description := "Additional field: " ++ "parking",
               examples := ["yes"], validation_pattern := none }) :=
  update_field_additional_spec PropertyFormModel.new "parking" "yes" (by decide)

/-- C7: when a supplied value for a required field fails that field's
pattern validation, `update_field` still stores the value with an
`INVALID` status, recomputes `form_complete` (it equals `is_complete` of
the resulting form), and returns `(false, message)`. -/
theorem update_field_invalid_persists (f : PropertyFormModel) (name value msg : String)
    (hname : name ∈ requiredNames)
    (hval : (f.getRequired name).validate_value value = (false, some msg)) :
    (f.update_field name value).1 = (false, some msg) ∧
    ((f.update_field name value).2.getRequired name).value = some value ∧
    ((f.update_field name value).2.getRequired name).status = FieldStatus.INVALID ∧
    (f.update_field name value).2.form_complete =
      (f.update_field name value).2.is_complete := by
  unfold PropertyFormModel.update_field
  rw [if_pos hname]
  refine ⟨by simp [hval], ?_, ?_, rfl⟩ <;>
    simp [hval, getRequired_setRequired,
      show ∀ (g : PropertyFormModel) (b : Bool) (n : String),
          ({ g with form_complete := b } : PropertyFormModel).getRequired n =
            g.getRequired n from fun g b n => rfl]

/-- Witness for C7: `cityPatternForm` rejects `"b"` for `city` but stores
it with status `INVALID`. -/
theorem update_field_invalid_persists_witness :
    (cityPatternForm.update_field "city" "b").1 = (false, some patternErrorMsg) ∧
    ((cityPatternForm.update_field "city" "b").2.getRequired "city").value = some "b" ∧
    ((cityPatternForm.update_field "city" "b").2.getRequired "city").status =
      FieldStatus.INVALID ∧
    (cityPatternForm.update_field "city" "b").2.form_complete =
      (cityPatternForm.update_field "city" "b").2.is_complete :=
  update_field_invalid_persists cityPatternForm "city" "b" patternErrorMsg
    (by decide) (by decide)

lemma map_setvs_of_none (l : List (String × PropertyField)) (n value : String)
    (h : dictGet l n = none) :
    (l.map fun kv =>
      if kv.1 = n then
        (kv.1, { kv.2 with value := some value, status := FieldStatus.VALID })
      else kv) = l := by
  induction l with
  | nil => rfl
  | cons kv rest ih =>
      by_cases hk : kv.1 = n
      · simp [dictGet, hk] at h
      · simp only [dictGet, if_neg hk] at h
        simp only [List.map_cons, if_neg hk, ih h]

lemma map_setvs_idem (l : List (String × PropertyField)) (n value : String) :
    ((l.map fun kv =>
        if kv.1 = n then
          (kv.1, { kv.2 with value := some value, status := FieldStatus.VALID })
        else kv).map fun kv =>
        if kv.1 = n then
          (kv.1, { kv.2 with value := some value, status := FieldStatus.VALID })
        else kv) =
      l.map fun kv =>
        if kv.1 = n then
          (kv.1, { kv.2 with value := some value, status := FieldStatus.VALID })
        else kv := by
  rw [List.map_map]
  refine List.map_congr_left fun kv _ => ?_
  by_cases hk : kv.1 = n <;> simp [hk]

/-- A single `update_field` is idempotent on the form: repeating the call
with the identical name and value leaves the form unchanged. -/
lemma update_field_idem (f : PropertyFormModel) (n v : String) :
    ((f.update_field n v).2.update_field n v).2 = (f.update_field n v).2 := by
  by_cases hn : n ∈ requiredNames
  · simp only [requiredNames, List.mem_cons, List.mem_singleton,
      List.not_mem_nil, or_false] at hn
    rcases hn with rfl | rfl | rfl | rfl <;> rfl
  · have step : ∀ g : PropertyFormModel, (g.update_field n v).2 =
        if (dictGet g.additional_fields n).isNone then
          { g with additional_fields := g.additional_fields ++
              [(n, { status := FieldStatus.VALID, value := some v,
                     description := "Additional field: " ++ n,
                     examples := [v], validation_pattern := none })] }
        else
          { g with additional_fields :=
              g.additional_fields.map fun kv =>
                if kv.1 = n then
                  (kv.1, { kv.2 with value := some v, status := FieldStatus.VALID })
                else kv } := by
      intro g
      unfold PropertyFormModel.update_field
      rw [if_neg hn]
      cases hd : dictGet g.additional_fields n <;> rfl
    rw [step f, step]
    cases hd : dictGet f.additional_fields n with
    | none =>
        rw [show (none : Option PropertyField).isNone = true from rfl, if_pos rfl]
        dsimp only
        rw [dictGet_append_self _ _ _ hd]
        rw [show ∀ fl : PropertyField, (some fl).isNone = false from fun _ => rfl,
          if_neg Bool.false_ne_true]
        congr 1
        rw [List.map_append, map_setvs_of_none _ _ _ hd]
        simp
    | some fl0 =>
        rw [show (some fl0).isNone = false from rfl, if_neg Bool.false_ne_true]
        dsimp only
        rw [dictGet_map_setvs, hd]
        simp only [Option.map_some', Option.isNone_some, if_neg Bool.false_ne_true]
        congr 1
        exact map_setvs_idem f.additional_fields n v

/-- Loading from a state that already stores a deserializable form is a
pure read: it returns that form and leaves the state unchanged. -/
lemma get_form_from_state_of_stored (st : SessionState) (r : PropertyFormRepr)
    (form : PropertyFormModel) (hr : st.property_form = some r)
    (hform : PropertyFormModel.model_validate r = some form) :
    get_form_from_state st = some (form, st) := by
  simp [get_form_from_state, init_form_in_state, hr, hform]

/-- The short-circuit of `extract_field`: when the stored value of the
normalized field equals the incoming value, the tool reports
`"unchanged"` and returns the state it was given, untouched. -/
lemma extract_field_unchanged_of_stored (field_name value : String)
    (st : SessionState) (r : PropertyFormRepr) (form : PropertyFormModel)
    (hr : st.property_form = some r)
    (hform : PropertyFormModel.model_validate r = some form)
    (hcur : storedValue form (normalizeFieldName field_name) = some value) :
    extract_field field_name value st =
      some (.unchanged (normalizeFieldName field_name) value
        "Field already has this value", st) := by
  unfold extract_field
  rw [get_form_from_state_of_stored st r form hr hform]
  simp [hcur]

lemma init_count (st : SessionState) :
    (init_form_in_state st).form_validation_count = st.form_validation_count := by
  unfold init_form_in_state
  cases hp : st.property_form <;> simp

/-- Inverting a successful `get_form_from_state`: the returned state is
the (idempotently initialized) input state and its stored representation
deserializes to the returned form. -/
lemma get_form_from_state_inv (st : SessionState) (form : PropertyFormModel)
    (st1 : SessionState) (h : get_form_from_state st = some (form, st1)) :
    st1 = init_form_in_state st ∧
      ∃ r, st1.property_form = some r ∧
        PropertyFormModel.model_validate r = some form := by
  simp only [get_form_from_state] at h
  split at h
  case _ r heq =>
    cases hv : PropertyFormModel.model_validate r with
    | none => rw [hv] at h; cases h
    | some g =>
        rw [hv] at h
        simp only [Option.map_some', Option.some_inj, Prod.mk.injEq] at h
        obtain ⟨rfl, rfl⟩ := h
        exact ⟨rfl, r, heq, hv⟩
  case _ => cases h

lemma get_form_from_state_count (st : SessionState) (form : PropertyFormModel)
    (st1 : SessionState) (h : get_form_from_state st = some (form, st1)) :
    st1.form_validation_count = st.form_validation_count := by
  rw [(get_form_from_state_inv st form st1 h).1]
  exact init_count st

lemma init_of_some (st : SessionState) (r : PropertyFormRepr)
    (h : st.property_form = some r) : init_form_in_state st = st := by
  unfold init_form_in_state
  rw [h]

lemma get_form_from_state_idem (st : SessionState) (form : PropertyFormModel)
    (st1 : SessionState) (h : get_form_from_state st = some (form, st1)) :
    get_form_from_state st1 = some (form, st1) := by
  obtain ⟨-, r, hr, hv⟩ := get_form_from_state_inv st form st1 h
  exact get_form_from_state_of_stored st1 r form hr hv

/-- C6: calling `update_field` twice in a row with the identical name and
value leaves the stored form (value and status of every field included)
identical to calling it once; and at the tool level, `extract_field`
invoked when the named field's stored value already equals the incoming
value reports status `"unchanged"` and performs no write to the session
state. -/
theorem update_field_idem_and_unchanged
    (f : PropertyFormModel) (n v : String)
    (field_name value : String) (st : SessionState) (r : PropertyFormRepr)
    (form : PropertyFormModel)
    (hr : st.property_form = some r)
    (hform : PropertyFormModel.model_validate r = some form)
    (hcur : storedValue form (normalizeFieldName field_name) = some value) :
    ((f.update_field n v).2.update_field n v).2 = (f.update_field n v).2 ∧
    (extract_field field_name value st).map (fun rs => rs.1.statusStr) =
      some "unchanged" ∧
    (extract_field field_name value st).map (fun rs => rs.2) = some st := by
  refine ⟨update_field_idem f n v, ?_, ?_⟩ <;>
    rw [extract_field_unchanged_of_stored field_name value st r form hr hform hcur] <;>
    rfl

/-- A form whose `city` field was set through `update_field` (status
`VALID`, value stored), used as the concrete stored payload below. -/
def storedForm : PropertyFormModel :=
  (PropertyFormModel.new.update_field "city" "Monterrey").2

/-- A session state already holding `storedForm`. -/
def storedState : SessionState := { property_form := some storedForm.model_dump }

/-- Witness for C6: repeating `update_field "parking" "yes"`, and
`extract_field "City" "Monterrey"` against a state whose `city` already
stores `"Monterrey"`. -/
theorem update_field_idem_and_unchanged_witness :
    ((PropertyFormModel.new.update_field "parking" "yes").2.update_field
        "parking" "yes").2 =
      (PropertyFormModel.new.update_field "parking" "yes").2 ∧
    (extract_field "City" "Monterrey" storedState).map (fun rs => rs.1.statusStr) =
      some "unchanged" ∧
    (extract_field "City" "Monterrey" storedState).map (fun rs => rs.2) =
      some storedState :=
  update_field_idem_and_unchanged PropertyFormModel.new "parking" "yes"
    "City" "Monterrey" storedState storedForm.model_dump storedForm
    rfl rfl rfl

/-- C10: when the normalized field name is one of the four required names
and that field's stored value equals the incoming value, `extract_field`
reports `"unchanged"` and leaves the state untouched regardless of the
field's validation status — no hypothesis on the status is needed, so in
particular a previously rejected (`INVALID`) value is reported
`"unchanged"` with no error re-surfaced and no write. -/
theorem extract_field_unchanged_invalid_field
    (field_name value : String) (st : SessionState) (r : PropertyFormRepr)
    (form : PropertyFormModel)
    (hr : st.property_form = some r)
    (hform : PropertyFormModel.model_validate r = some form)
    (hreq : normalizeFieldName field_name ∈ requiredNames)
    (hval : (form.getRequired (normalizeFieldName field_name)).value = some value) :
    extract_field field_name value st =
      some (.unchanged (normalizeFieldName field_name) value
        "Field already has this value", st) :=
  extract_field_unchanged_of_stored field_name value st r form hr hform
    (by unfold storedValue; rw [if_pos hreq]; exact hval)

/-- A form whose `city` field holds a rejected value: `"zz"` fails the
pattern of `cityPatternForm`, so the stored status is `INVALID`. -/
def invalidCityForm : PropertyFormModel :=
  (cityPatternForm.update_field "city" "zz").2

/-- A session state already holding `invalidCityForm`. -/
def invalidCityState : SessionState :=
  { property_form := some invalidCityForm.model_dump }

/-- Witness for C10: the stored `city` is `INVALID` with value `"zz"`, and
`extract_field "City" "zz"` reports `"unchanged"` without touching the
state. -/
theorem extract_field_unchanged_invalid_field_witness :
    invalidCityForm.city.status = FieldStatus.INVALID ∧
    extract_field "City" "zz" invalidCityState =
      some (.unchanged "city" "zz" "Field already has this value",
        invalidCityState) :=
  ⟨by decide,
    extract_field_unchanged_invalid_field "City" "zz" invalidCityState
      invalidCityForm.model_dump invalidCityForm rfl rfl (by decide) (by decide)⟩

/-- The empty session state (no form, no counter). -/
def emptySession : SessionState := {}

/-- The counter value `before_validator_cb` writes: `0` when the key was
absent, the old value plus one otherwise. -/
def bumpCount : Option Nat → Nat
  | none => 0
  | some k => k + 1

/-- C9 (counterexample): two consecutive invocations of
`check_form_status` on a fresh session both report `validation_count = 0`:
an invocation of the tool does not increase the count it reports. -/
theorem check_form_status_count_cx :
    ((check_form_status emptySession).bind fun r1 =>
      (check_form_status r1.2).map fun r2 =>
        (r1.1.validation_count, r2.1.validation_count)) = some (0, 0) := rfl

/-- C9 (amended): the `validation_count` returned by `check_form_status`
is the session's `form_validation_count` entry (default `0`), which the
tool reads but never modifies; the counter is maintained by the validator
agent's before-callback `before_validator_cb`, which initializes it to `0`
when absent and increments it by one otherwise. -/
theorem check_form_status_count_spec (st : SessionState) (res : StatusResult)
    (st' : SessionState) (h : check_form_status st = some (res, st')) :
    res.validation_count = st.form_validation_count.getD 0 ∧
    st'.form_validation_count = st.form_validation_count ∧
    before_validator_cb st =
      { st with form_validation_count := some (bumpCount st.form_validation_count) } := by
  have hcb : before_validator_cb st =
      { st with form_validation_count := some (bumpCount st.form_validation_count) } := by
    unfold before_validator_cb bumpCount
    cases hc : st.form_validation_count <;> rfl
  cases hg : get_form_from_state st with
  | none =>
      simp [check_form_status, get_missing_fields_state, hg] at h
  | some p =>
      obtain ⟨form, st1⟩ := p
      have hcount := get_form_from_state_count st form st1 hg
      have hidem := get_form_from_state_idem st form st1 hg
      simp [check_form_status, get_missing_fields_state, is_form_complete,
        get_form_summary, hg, hidem, Prod.mk.injEq] at h
      obtain ⟨hres, hst⟩ := h
      refine ⟨?_, ?_, hcb⟩
      · rw [← hres, ← hcount]
      · rw [← hst, hcount]

/-- A session state holding a fresh serialized form and a counter of 5. -/
def countState : SessionState :=
  { property_form := some PropertyFormModel.new.model_dump,
    form_validation_count := some 5 }

/-- The record `check_form_status` returns on `countState`. -/
def countStatus : StatusResult :=
  { form_complete := PropertyFormModel.new.is_complete,
    missing_fields := PropertyFormModel.new.get_missing_fields,
    summary := PropertyFormModel.new.get_fields_summary,
    validation_count := 5 }

/-- Witness for the amended C9 at `countState`. -/
theorem check_form_status_count_spec_witness :
    countStatus.validation_count = countState.form_validation_count.getD 0 ∧
    countState.form_validation_count = countState.form_validation_count ∧
    before_validator_cb countState =
      { countState with form_validation_count := some 6 } :=
  check_form_status_count_spec countState countStatus countState rfl

/-- A sequence of updates filling all four required fields. -/
def demoUpdates : List (String × String) :=
  [("budget", "20000 USD"), ("total_size", "500m2"),
   ("real_estate_type", "office"), ("city", "CDMX")]

/-- Witness for C1: after filling all four required fields the cached
flag is true, by the invariant applied at `demoUpdates`. -/
theorem form_complete_invariant_witness :
    (applyUpdates PropertyFormModel.new demoUpdates).form_complete = true :=
  (form_complete_invariant demoUpdates).2.1.mpr ⟨rfl, rfl, rfl, rfl⟩

/-- Witness for C4 at a form holding an `INVALID` city. -/
theorem get_missing_fields_spec_witness :
    invalidCityForm.get_missing_fields = requiredNames.filter
      (fun name =>
        decide ((invalidCityForm.getRequired name).status ≠ FieldStatus.VALID)) :=
  get_missing_fields_spec invalidCityForm

/-- Witness for C8 at the empty session state and `storedForm`. -/
theorem form_save_load_roundtrip_witness :
    get_form_from_state (update_form_in_state emptySession storedForm) =
      some (storedForm, update_form_in_state emptySession storedForm) :=
  form_save_load_roundtrip emptySession storedForm

end Spot2
